import Mathlib

/-!
Verification of the `report_generator` reasoning/synthesis layer.

This file shallowly embeds the reasoning layer of the repository
(`src/report_generator/reasoning/`): the prompt builders and response
parsers (`prompts/executive_summary.py`, `prompts/risk_analysis.py`,
`prompts/action_items.py`), the synthesizer (`synthesizer.py`) and the
argument-validation / retry logic of the Anthropic provider
(`provider.py`), and proves the claimed properties about them.

Python values flowing through the layer are modelled by the inductive
type `PyVal` (dicts as association lists, preserving insertion order and
first-key-wins lookup like Python dicts).  Fallible Python code is
modelled with `Except PyErr`; the distinct Python exception classes that
the claims distinguish (`ValueError`, `TypeError`, `AttributeError`,
`LLMProviderError`) are constructors of `PyErr`.  `json.loads` from the
Python standard library is modelled by the executable parser
`jsonDecode` below (JSON numbers are modelled as integers; the
`JSONDecodeError` message is modelled by the fixed non-empty string
`jsonErrorMsg`).
-/

namespace ReportGen

/-! ### String helpers

Python's string methods are modelled by structurally recursive
functions over the character list (core `String.trim`, `splitOn` and
friends are avoided: they are defined by well-founded recursion, which
the kernel cannot evaluate). -/

/-- The whitespace characters stripped by Python's `str.strip()`. -/
def pyWs : List Char := [' ', '\t', '\n', '\r', Char.ofNat 11, Char.ofNat 12]

/-- Drop leading whitespace characters. -/
def dropWsLeft : List Char → List Char
  | [] => []
  | c :: cs => if pyWs.contains c then dropWsLeft cs else c :: cs

/-- Python `s.strip()`. -/
def pyStrip (s : String) : String :=
  String.mk ((dropWsLeft (dropWsLeft s.data.reverse).reverse))

/-- Python `s.lower()` (ASCII, which covers every compared string). -/
def pyLower (s : String) : String :=
  String.mk (s.data.map Char.toLower)

/-- Python `s.startswith(pre)`. -/
def pyStartsWith (s pre : String) : Bool :=
  pre.data.isPrefixOf s.data

/-- Python `s[:n]` (slice of the first `n` characters). -/
def pyTake (s : String) (n : Nat) : String :=
  String.mk (s.data.take n)

/-- Python `s[n:]` (drop the first `n` characters). -/
def pyDrop (s : String) (n : Nat) : String :=
  String.mk (s.data.drop n)

/-- Python `sep.join(parts)`. -/
def pyJoin (sep : String) : List String → String
  | [] => ""
  | [x] => x
  | x :: y :: rest => x ++ sep ++ pyJoin sep (y :: rest)

/-- Split a character list on one separator character. -/
def splitOnChar (sep : Char) (cs : List Char) : List (List Char) :=
  cs.foldr
    (fun d acc =>
      match acc with
      | [] => if d = sep then [[], []] else [[d]]
      | a :: as => if d = sep then [] :: a :: as else (d :: a) :: as)
    [[]]

/-- Python `s.split("\n")`. -/
def pySplitLines (s : String) : List String :=
  (splitOnChar '\n' s.data).map String.mk

/-- Whether `needle` occurs as a contiguous sublist of `hay`. -/
def subOccurs : List Char → List Char → Bool
  | [], needle => needle.isEmpty
  | h :: t, needle => needle.isPrefixOf (h :: t) || subOccurs t needle

/-- Model of a Python value as manipulated by the reasoning layer:
`None`, booleans, integers, strings, lists, tuples and string-keyed
dicts (represented as association lists in insertion order). -/
inductive PyVal where
  | null : PyVal
  | bool : Bool → PyVal
  | int : Int → PyVal
  | str : String → PyVal
  | list : List PyVal → PyVal
  | tuple : List PyVal → PyVal
  | dict : List (String × PyVal) → PyVal
deriving Repr, Inhabited

/-- Model of the Python exceptions the reasoning layer raises or
catches.  `str(e)` on any of these returns the carried message. -/
inductive PyErr where
  | valueError : String → PyErr
  | typeError : String → PyErr
  | attributeError : String → PyErr
  | keyError : String → PyErr
  | providerError : String → PyErr
deriving Repr, DecidableEq

/-- Python `str(e)` on a caught exception: the exception's message. -/
def PyErr.msg : PyErr → String
  | .valueError m => m
  | .typeError m => m
  | .attributeError m => m
  | .keyError m => m
  | .providerError m => m

/-- First-match lookup in an association list, like Python dict access
(Python dicts have unique keys; first match is the binding). -/
def dictLookup : List (String × PyVal) → String → Option PyVal
  | [], _ => none
  | (k', v) :: rest, k => if k' = k then some v else dictLookup rest k

/-- Python `k in d` for a dict `d`. -/
def dictContains (l : List (String × PyVal)) (k : String) : Bool :=
  (dictLookup l k).isSome

/-- Python `d[k] = v`: replaces the value at an existing key in place
(keeping the key's position) or appends a new binding, exactly as a
Python dict updates. -/
def dictSet : List (String × PyVal) → String → PyVal → List (String × PyVal)
  | [], k, v => [(k, v)]
  | (k', v') :: rest, k, v =>
      if k' = k then (k, v) :: rest else (k', v') :: dictSet rest k v

/-- Python `d.get(k, default)`. -/
def dictGet (l : List (String × PyVal)) (k : String) (default : PyVal) : PyVal :=
  (dictLookup l k).getD default

/-- Python `==` between a value and a string literal: true exactly when
the value is an equal string (values of other types compare unequal to a
string). -/
def pyEqStr : PyVal → String → Bool
  | .str s, t => s = t
  | _, _ => false

/-- Python `v in [s1, ..., sn]` membership test against a list of
string literals. -/
def pyInStrList (v : PyVal) (ss : List String) : Bool :=
  ss.any (fun s => pyEqStr v s)

/-- Python truthiness of a value (`if v:`). -/
def pyTruthy : PyVal → Bool
  | .null => false
  | .bool b => b
  | .int n => n ≠ 0
  | .str s => s ≠ ""
  | .list xs => ¬ xs.isEmpty
  | .tuple xs => ¬ xs.isEmpty
  | .dict fs => ¬ fs.isEmpty

mutual

/-- Python `repr(v)`, as used by `str` on containers. -/
def pyRepr : PyVal → String
  | .null => "None"
  | .bool true => "True"
  | .bool false => "False"
  | .int n => toString n
  | .str s => "'" ++ s ++ "'"
  | .list xs => "[" ++ pyReprList xs ++ "]"
  | .tuple xs => "(" ++ pyReprList xs ++ ")"
  | .dict fs => "\x7b" ++ pyReprFields fs ++ "\x7d"

/-- Comma-separated `repr`s of list elements. -/
def pyReprList : List PyVal → String
  | [] => ""
  | [x] => pyRepr x
  | x :: y :: xs => pyRepr x ++ ", " ++ pyReprList (y :: xs)

/-- Comma-separated `repr`s of dict entries. -/
def pyReprFields : List (String × PyVal) → String
  | [] => ""
  | [(k, v)] => "'" ++ k ++ "': " ++ pyRepr v
  | (k, v) :: f :: fs => "'" ++ k ++ "': " ++ pyRepr v ++ ", " ++ pyReprFields (f :: fs)

end

/-- Python `str(v)` / f-string formatting of a value. -/
def pyStr : PyVal → String
  | .str s => s
  | v => pyRepr v

/-- Python `len(v)` (defined on sequences and dicts, `TypeError`
otherwise). -/
def pyLen : PyVal → Except PyErr Int
  | .list xs => .ok xs.length
  | .tuple xs => .ok xs.length
  | .str s => .ok s.length
  | .dict fs => .ok fs.length
  | _ => .error (.typeError "object of type has no len()")

/-- Python `v.get(k, default)` on a value expected to be a dict
(`AttributeError` on anything else). -/
def pyDictGet (v : PyVal) (k : String) (default : PyVal) : Except PyErr PyVal :=
  match v with
  | .dict fs => .ok (dictGet fs k default)
  | _ => .error (.attributeError "object has no attribute get")

/-- A Python value expected to be a string (`AttributeError` raised by
the subsequent `.strip()` call on anything else). -/
def pyAsStr : PyVal → Except PyErr String
  | .str s => .ok s
  | _ => .error (.attributeError "object has no attribute strip")

/-- Iterating a Python value as a sequence (`for x in v`): lists and
tuples yield their elements, anything else raises `TypeError` (dict and
string iteration are not used on well-formed report contexts and are
modelled as `TypeError`). -/
def pyAsSeq : PyVal → Except PyErr (List PyVal)
  | .list xs => .ok xs
  | .tuple xs => .ok xs
  | _ => .error (.typeError "object is not iterable")

/-- Destructuring one element of `for a, b in v`: the element must be a
2-element tuple or list. -/
def pyUnpack2 : PyVal → Except PyErr (PyVal × PyVal)
  | .tuple [a, b] => .ok (a, b)
  | .list [a, b] => .ok (a, b)
  | _ => .error (.typeError "cannot unpack value to 2 names")

/-- Destructure every element of a sequence into a pair, stopping at
the first failure. -/
def mapUnpack2 : List PyVal → Except PyErr (List (PyVal × PyVal))
  | [] => .ok []
  | x :: xs => do
      let p ← pyUnpack2 x
      let ps ← mapUnpack2 xs
      pure (p :: ps)

/-- Python `for a, b in v`: iterate and destructure each element into a pair. -/
def pyAsPairSeq (v : PyVal) : Except PyErr (List (PyVal × PyVal)) := do
  let xs ← pyAsSeq v
  mapUnpack2 xs

/-! ### Model of `json.loads`

The Python standard library's `json.loads` is modelled by the
executable recursive-descent parser below: JSON objects become `PyVal`
dicts (duplicate keys resolved last-value-wins at the first key's
position, as Python dicts do), arrays become lists, and numbers are
modelled as integers (the claims under verification never depend on
non-integer numbers).  On any parse failure the model reports the fixed
non-empty message `jsonErrorMsg`, modelling `str` of the raised
`json.JSONDecodeError`. -/

/-- The opening-brace character (used instead of a literal for objects). -/
def lcurly : Char := Char.ofNat 123

/-- The closing-brace character. -/
def rcurly : Char := Char.ofNat 125

/-- Skip JSON whitespace. -/
def skipWs : List Char → List Char
  | [] => []
  | c :: cs => if c = ' ' ∨ c = '\t' ∨ c = '\n' ∨ c = '\r' then skipWs cs else c :: cs

/-- Parse the body of a JSON string after the opening quote, handling
the single-character escapes. -/
def parseStringBody : List Char → List Char → Option (String × List Char)
  | [], _ => none
  | c :: rest, acc =>
      if c = '"' then some (String.mk acc.reverse, rest)
      else if c = '\\' then
        match rest with
        | [] => none
        | e :: rest' =>
            if e = '"' then parseStringBody rest' ('"' :: acc)
            else if e = '\\' then parseStringBody rest' ('\\' :: acc)
            else if e = '/' then parseStringBody rest' ('/' :: acc)
            else if e = 'n' then parseStringBody rest' ('\n' :: acc)
            else if e = 't' then parseStringBody rest' ('\t' :: acc)
            else if e = 'r' then parseStringBody rest' ('\r' :: acc)
            else none
      else parseStringBody rest (c :: acc)

/-- Consume a run of decimal digits, returning them and the rest. -/
def takeDigits : List Char → List Char × List Char
  | [] => ([], [])
  | c :: cs =>
      if c.isDigit then
        let (ds, rest) := takeDigits cs
        (c :: ds, rest)
      else ([], c :: cs)

/-- Digits to a natural number. -/
def digitsToNat (ds : List Char) : Nat :=
  ds.foldl (fun acc c => acc * 10 + (c.toNat - 48)) 0

/-- Parse a JSON integer (optional minus sign, one or more digits). -/
def parseNumber (cs : List Char) : Option (PyVal × List Char) :=
  match cs with
  | '-' :: rest =>
      let (ds, rest') := takeDigits rest
      if ds.isEmpty then none else some (.int (-(digitsToNat ds : Int)), rest')
  | _ =>
      let (ds, rest') := takeDigits cs
      if ds.isEmpty then none else some (.int (digitsToNat ds), rest')

mutual

/-- Parse one JSON value; `fuel` bounds the recursion depth. -/
def parseVal : Nat → List Char → Option (PyVal × List Char)
  | 0, _ => none
  | fuel + 1, cs =>
      match skipWs cs with
      | [] => none
      | c :: rest =>
          if c = '"' then
            match parseStringBody rest [] with
            | some (s, r) => some (.str s, r)
            | none => none
          else if c = '[' then
            match skipWs rest with
            | ']' :: r => some (.list [], r)
            | r => match parseElems fuel r with
                   | some (vs, r') => some (.list vs, r')
                   | none => none
          else if c = lcurly then
            match skipWs rest with
            | r =>
                if r.head? = some rcurly then some (.dict [], r.tail)
                else match parseMembers fuel r with
                     | some (ms, r') =>
                         some (.dict (ms.foldl (fun acc kv => dictSet acc kv.1 kv.2) []), r')
                     | none => none
          else if c = 'n' then
            match rest with
            | 'u' :: 'l' :: 'l' :: r => some (.null, r)
            | _ => none
          else if c = 't' then
            match rest with
            | 'r' :: 'u' :: 'e' :: r => some (.bool true, r)
            | _ => none
          else if c = 'f' then
            match rest with
            | 'a' :: 'l' :: 's' :: 'e' :: r => some (.bool false, r)
            | _ => none
          else if c = '-' ∨ c.isDigit then parseNumber (c :: rest)
          else none

/-- Parse the comma-separated elements of a non-empty JSON array up to
the closing bracket. -/
def parseElems : Nat → List Char → Option (List PyVal × List Char)
  | 0, _ => none
  | fuel + 1, cs =>
      match parseVal fuel cs with
      | none => none
      | some (v, r) =>
          match skipWs r with
          | ',' :: r2 =>
              match parseElems fuel (skipWs r2) with
              | some (vs, r3) => some (v :: vs, r3)
              | none => none
          | ']' :: r2 => some ([v], r2)
          | _ => none

/-- Parse the comma-separated members of a non-empty JSON object up to
the closing brace. -/
def parseMembers : Nat → List Char → Option (List (String × PyVal) × List Char)
  | 0, _ => none
  | fuel + 1, cs =>
      match skipWs cs with
      | '"' :: r =>
          match parseStringBody r [] with
          | none => none
          | some (k, r1) =>
              match skipWs r1 with
              | ':' :: r2 =>
                  match parseVal fuel (skipWs r2) with
                  | none => none
                  | some (v, r3) =>
                      match skipWs r3 with
                      | ',' :: r4 =>
                          match parseMembers fuel r4 with
                          | some (ms, r5) => some ((k, v) :: ms, r5)
                          | none => none
                      | c :: r4 =>
                          if c = rcurly then some ([(k, v)], r4) else none
                      | [] => none
              | _ => none
      | _ => none

end

/-- Model of `json.loads`: parse a complete JSON document (trailing
non-whitespace is an error, as Python reports "Extra data"). -/
def jsonDecode (s : String) : Option PyVal :=
  match parseVal (2 * s.length + 8) s.data with
  | some (v, rest) => if skipWs rest = [] then some v else none
  | none => none

/-- Model of `str(e)` for the `json.JSONDecodeError` raised by a failed
`json.loads`: a fixed, non-empty message. -/
def jsonErrorMsg : String := "Expecting value: line 1 column 1 (char 0)"

/-- Substring test, for Python's `needle in haystack` on strings. -/
def strContains (haystack needle : String) : Bool :=
  subOccurs haystack.data needle.data

/-- Python `k in v` for a string `k`: key test on dicts, element
equality on lists and tuples, substring test on strings, `TypeError`
on non-container values. -/
def pyContains (v : PyVal) (k : String) : Except PyErr Bool :=
  match v with
  | .dict fs => .ok (dictContains fs k)
  | .list xs => .ok (xs.any (fun x => pyEqStr x k))
  | .tuple xs => .ok (xs.any (fun x => pyEqStr x k))
  | .str s => .ok (strContains s k)
  | _ => .error (.typeError "argument of type is not iterable")

/-- Python `v[k]` for a string key `k`: dict lookup (`KeyError` when
absent), `TypeError` on sequences (string indices required to be
integers) and on non-subscriptable values. -/
def pyGetItemStr (v : PyVal) (k : String) : Except PyErr PyVal :=
  match v with
  | .dict fs =>
      match dictLookup fs k with
      | some x => .ok x
      | none => .error (.keyError k)
  | .list _ => .error (.typeError "list indices must be integers or slices, not str")
  | .tuple _ => .error (.typeError "tuple indices must be integers or slices, not str")
  | .str _ => .error (.typeError "string indices must be integers, not str")
  | _ => .error (.typeError "object is not subscriptable")

/-- Python `v[k] = x` for a string key `k`: dict update, `TypeError`
on everything else. -/
def pySetItemStr (v : PyVal) (k : String) (x : PyVal) : Except PyErr PyVal :=
  match v with
  | .dict fs => .ok (.dict (dictSet fs k x))
  | .list _ => .error (.typeError "list indices must be integers or slices, not str")
  | .tuple _ => .error (.typeError "tuple object does not support item assignment")
  | .str _ => .error (.typeError "str object does not support item assignment")
  | _ => .error (.typeError "object does not support item assignment")

/-- A report context: the Python dict passed to the reasoning layer. -/
abbrev Ctx := List (String × PyVal)

/-! ### `reasoning/prompts/risk_analysis.py` -/

namespace risk_analysis

/-- One entry of the list built by `_extract_risks`: the dict
`{"deliverable": ..., "status": ..., "risk": ...}`. -/
structure RiskEntry where
  deliverable : PyVal
  status : PyVal
  risk : String
deriving Repr

/-- The boilerplate risk strings skipped by `_extract_risks` (the
list literal on lines 109-114 of `risk_analysis.py`). -/
def boilerplate : List String :=
  ["no risks or issues reported this week", "none", "n/a", ""]

/-- The body of `_extract_risks`'s inner loop: append the item's entry
when its stripped `risks_issues` text is non-empty and not boilerplate
(lowercased comparison). -/
def extract_step (status : PyVal) (acc : List RiskEntry) (item : PyVal) :
    Except PyErr (List RiskEntry) := do
  let deliverable ← pyDictGet item "deliverable" (.str "Unknown")
  let riskVal ← pyDictGet item "risks_issues" (.str "")
  let riskStr ← pyAsStr riskVal
  let risk_text := pyStrip riskStr
  if risk_text ≠ "" ∧ ¬ boilerplate.contains (pyLower risk_text) then
    pure (acc ++ [⟨deliverable, status, risk_text⟩])
  else
    pure acc

/-- One iteration of `_extract_risks`'s outer loop over a
`(status, items)` pair. -/
def extract_group (acc : List RiskEntry) (p : PyVal × PyVal) :
    Except PyErr (List RiskEntry) := do
  let elems ← pyAsSeq p.2
  elems.foldlM (extract_step p.1) acc

/-- Embedding of `_extract_risks(status_groups)`: collect `(deliverable, status,
risk)` entries for every item whose stripped `risks_issues` text is
non-empty and not boilerplate. -/
def extract_risks (status_groups : PyVal) : Except PyErr (List RiskEntry) := do
  let pairs ← pyAsPairSeq status_groups
  pairs.foldlM extract_group []

/-- Embedding of `_format_risks(risks)`: the "**name** (status) / Risk: ..." block
of the prompt. -/
def format_risks (risks : List RiskEntry) : String :=
  let lines := risks.foldl
    (fun acc r =>
      acc ++ ["**" ++ pyStr r.deliverable ++ "** (" ++ pyStr r.status ++ ")",
              "Risk: " ++ r.risk, ""])
    []
  pyJoin "\n" lines

/-- The part of the risk-analysis prompt template before
`{risks_text}`. -/
def prompt_head : String :=
  "You are analyzing risks and issues from a weekly program status report.\n\n" ++
  "## All Reported Risks and Issues\n\n"

/-- The part of the risk-analysis prompt template after
`{risks_text}`. -/
def prompt_tail : String :=
  "\n\n## Task\n\nAnalyze these risks and provide:\n\n" ++
  "1. **Cross-Cutting Themes** (2-4 themes max)\n" ++
  "   - Identify patterns that appear across multiple deliverables\n" ++
  "   - Examples: \"resource constraints\", \"dependency delays\", \"unclear requirements\"\n" ++
  "   - Only report themes that appear in 2+ deliverables\n\n" ++
  "2. **Severity Assessment**\n" ++
  "   - Which risks are most critical?\n" ++
  "   - Which require immediate action?\n\n" ++
  "3. **Anomalies** (if any)\n" ++
  "   - Deliverables with vague/unclear risk descriptions\n" ++
  "   - Risks that seem mismatched with status (e.g., \"On Track\" with major risks)\n" ++
  "   - Missing risk information where expected\n\n" ++
  "## Output Format\n\nReturn ONLY valid JSON with this structure:\n" ++
  "\x7b\n  \"themes\": [\n    \x7b\n      \"name\": \"Theme name (2-4 words)\",\n" ++
  "      \"description\": \"Brief explanation (1 sentence)\",\n" ++
  "      \"affected_deliverables\": [\"Deliverable 1\", \"Deliverable 2\"],\n" ++
  "      \"severity\": \"high|medium|low\"\n    \x7d\n  ],\n" ++
  "  \"critical_risks\": [\n    \x7b\n      \"deliverable\": \"Deliverable name\",\n" ++
  "      \"risk\": \"Risk description\",\n" ++
  "      \"reason\": \"Why this is critical\"\n    \x7d\n  ],\n" ++
  "  \"anomalies\": [\n    \x7b\n      \"deliverable\": \"Deliverable name\",\n" ++
  "      \"issue\": \"Description of anomaly\"\n    \x7d\n  ]\n\x7d\n\n" ++
  "If no themes/anomalies found, use empty arrays. Be concise and specific."

/-- Embedding of `build_prompt(context)`: returns the sentinel `None` when the
extracted risk list is empty, otherwise the formatted prompt. -/
def build_prompt (context : Ctx) : Except PyErr (Option String) := do
  let status_groups := dictGet context "status_groups" (.list [])
  let risks_by_deliverable ← extract_risks status_groups
  if risks_by_deliverable.isEmpty then
    pure none
  else
    let risks_text := format_risks risks_by_deliverable
    pure (some (prompt_head ++ risks_text ++ prompt_tail))

/-- One `if key not in data: data[key] = []` statement of
`parse_response`, with Python's dynamic membership/assignment
semantics. -/
def backfill_key (data : PyVal) (key : String) : Except PyErr PyVal := do
  let present ← pyContains data key
  if present then pure data else pySetItemStr data key (.list [])

/-- The fallback dict returned by `parse_response` when `json.loads`
raises. -/
def fallback_result : PyVal :=
  .dict [("themes", .list []), ("critical_risks", .list []),
         ("anomalies", .list []), ("parse_error", .str jsonErrorMsg)]

/-- Embedding of `parse_response(response)`: parse JSON (stripped); on decode
failure return the structured fallback instead of raising; on success
back-fill the `themes`, `critical_risks` and `anomalies` keys. -/
def parse_response (response : String) : Except PyErr PyVal :=
  match jsonDecode (pyStrip response) with
  | none => .ok fallback_result
  | some data => do
      let data ← backfill_key data "themes"
      let data ← backfill_key data "critical_risks"
      let data ← backfill_key data "anomalies"
      pure data

end risk_analysis

/-! ### `reasoning/prompts/executive_summary.py` -/

namespace executive_summary

/-- Embedding of `_format_status_breakdown(status_groups)`. -/
def format_status_breakdown (status_groups : PyVal) : Except PyErr String := do
  if ¬ pyTruthy status_groups then
    pure "  (No status information available)"
  else do
    let pairs ← pyAsPairSeq status_groups
    let lines ← pairs.mapM (fun p => do
      let (status, items) := p
      let count ← pyLen items
      pure ("  - " ++ pyStr status ++ ": " ++ toString count ++ " deliverable" ++
            (if count ≠ 1 then "s" else "")))
    pure (if ¬ lines.isEmpty then pyJoin "\n" lines else "  (No deliverables)")

/-- Embedding of `_extract_critical_items(status_groups)`. -/
def extract_critical_items (status_groups : PyVal) : Except PyErr String := do
  let critical_statuses : List String := ["Off Track", "At Risk"]
  let pairs ← pyAsPairSeq status_groups
  let critical_items ← pairs.foldlM
    (fun acc p => do
      let (status, items) := p
      if pyInStrList status critical_statuses then do
        let elems ← pyAsSeq items
        elems.foldlM
          (fun acc item => do
            let deliverable ← pyDictGet item "deliverable" (.str "Unknown")
            let priority ← pyDictGet item "priority" (.str "")
            let risksVal ← pyDictGet item "risks_issues" (.str "")
            let risksStr ← pyAsStr risksVal
            let risks := pyStrip risksStr
            let desc := "- [" ++ pyStr status ++ "] " ++ pyStr deliverable
            let desc := if pyTruthy priority
              then desc ++ " (Priority: " ++ pyStr priority ++ ")" else desc
            let desc := if risks ≠ "" then
                let risks_short :=
                  if 150 < risks.length then pyTake risks 150 ++ "..." else risks
                desc ++ "\n  Risk: " ++ risks_short
              else desc
            pure (acc ++ [desc]))
          acc
      else
        pure acc)
    []
  if critical_items.isEmpty then
    pure "  (No critical items - all deliverables on track or complete)"
  else
    pure (pyJoin "\n" critical_items)

/-- The boilerplate list of `_extract_risks_summary` (which, unlike
the risk-analysis one, does not list the empty string). -/
def summary_boilerplate : List String :=
  ["no risks or issues reported this week", "none", "n/a"]

/-- Embedding of `_extract_risks_summary(status_groups)`. -/
def extract_risks_summary (status_groups : PyVal) : Except PyErr String := do
  let pairs ← pyAsPairSeq status_groups
  let all_risks ← pairs.foldlM
    (fun acc p => do
      let (_, items) := p
      let elems ← pyAsSeq items
      elems.foldlM
        (fun acc item => do
          let deliverable ← pyDictGet item "deliverable" (.str "Unknown")
          let risksVal ← pyDictGet item "risks_issues" (.str "")
          let risksStr ← pyAsStr risksVal
          let risks := pyStrip risksStr
          if risks ≠ "" ∧ ¬ summary_boilerplate.contains (pyLower risks) then
            pure (acc ++ ["- " ++ pyStr deliverable ++ ": " ++ risks])
          else
            pure acc)
        acc)
    []
  if all_risks.isEmpty then
    pure "  (No risks or issues reported)"
  else
    pure (pyJoin "\n" all_risks)

/-- Embedding of `build_prompt(context)`: always yields a prompt string (no
sentinel) built from the metadata, breakdown, critical items and risk
summary sections. -/
def build_prompt (context : Ctx) : Except PyErr String := do
  let total := dictGet context "total_deliverables" (.int 0)
  let status_groups := dictGet context "status_groups" (.list [])
  let report_date := dictGet context "report_date" (.str "Unknown")
  let status_breakdown ← format_status_breakdown status_groups
  let critical_items ← extract_critical_items status_groups
  let risks_summary ← extract_risks_summary status_groups
  pure ("You are analyzing a weekly program status report for a technical program manager.\n\n" ++
    "## Report Metadata\n- Report Date: " ++ pyStr report_date ++
    "\n- Total Deliverables: " ++ pyStr total ++
    "\n\n## Status Breakdown\n" ++ status_breakdown ++
    "\n\n## Critical Items (Off Track / At Risk)\n" ++ critical_items ++
    "\n\n## Reported Risks and Issues\n" ++ risks_summary ++
    "\n\n## Task\nGenerate a concise executive summary (2-3 sentences) that:\n\n" ++
    "1. **States overall program health** - Is the program on track, at risk, or facing major issues?\n" ++
    "2. **Highlights the most critical item** - What single issue requires immediate attention?\n" ++
    "3. **Identifies any emerging patterns** - Are there themes across multiple deliverables (e.g., resource constraints, dependency delays)?\n\n" ++
    "## Guidelines\n- Be specific and decision-oriented (not generic)\n" ++
    "- Focus on actionable insights, not just facts\n" ++
    "- Use concrete examples from the data\n" ++
    "- Avoid phrases like \"the report shows\" or \"according to the data\"\n" ++
    "- Write in present tense, as if briefing an executive right now\n\n" ++
    "## Output Format\nReturn ONLY the executive summary text (2-3 sentences). No preamble, explanation, or formatting.")

/-- The dict returned by the executive-summary `parse_response`. -/
structure Parsed where
  summary : String
  length : Int
  sentence_count : Int
deriving Repr

/-- The preamble phrases stripped from the start of a response. -/
def preambles : List String :=
  ["Here is the executive summary:", "Executive Summary:", "Summary:"]

/-- Count the occurrences of a character in a string (Python
`s.count(c)` for a single-character needle). -/
def countChar (s : String) (c : Char) : Int :=
  (s.data.filter (fun d => d = c)).length

/-- Embedding of `parse_response(response)`: strip, remove known preambles, report
length and sentence count. -/
def parse_response (response : String) : Parsed :=
  let summary := pyStrip response
  let summary := preambles.foldl
    (fun s preamble =>
      if pyStartsWith s preamble then pyStrip (pyDrop s preamble.length) else s)
    summary
  { summary := summary
    length := summary.length
    sentence_count := countChar summary '.' + countChar summary '!' + countChar summary '?' }

end executive_summary

/-! ### `reasoning/prompts/action_items.py` -/

namespace action_items

/-- One entry of `critical_deliverables`: the dict with keys `name`,
`status`, `lead`, `risks_issues`, `next_steps`. -/
structure CriticalItem where
  name : PyVal
  status : PyVal
  lead : PyVal
  risks_issues : PyVal
  next_steps : PyVal
deriving Repr

/-- The fixed instruction/output-format lines appended to the
action-items prompt (`prompt_parts.extend` on lines 81-117). -/
def task_parts : List String :=
  ["## Task",
   "",
   "Generate 3-5 concrete, actionable recommendations for the program manager.",
   "Each action should:",
   "1. Be specific and implementable (not vague like 'monitor situation')",
   "2. Include who should do it (use existing leads or suggest 'Program Manager')",
   "3. Address the most critical risks/blockers",
   "4. Have a clear success criterion",
   "",
   "Also assign a confidence level (high/medium/low) based on:",
   "- **High**: Action is clearly needed and has obvious next steps",
   "- **Medium**: Action is likely helpful but may need refinement",
   "- **Low**: Action is speculative or requires more investigation",
   "",
   "## Output Format",
   "",
   "Return ONLY valid JSON with this structure:",
   "```json",
   "\x7b",
   "  \"actions\": [",
   "    \x7b",
   "      \"title\": \"Short action title (5-10 words)\",",
   "      \"description\": \"Detailed description of what needs to be done\",",
   "      \"owner\": \"Who should do this (lead name or role)\",",
   "      \"success_criterion\": \"How to know when this is complete\",",
   "      \"confidence\": \"high|medium|low\",",
   "      \"related_deliverables\": [\"Deliverable Name 1\", \"Deliverable Name 2\"]",
   "    \x7d",
   "  ]",
   "\x7d",
   "```",
   "",
   "Focus on the highest-impact actions first."]

/-- Embedding of `build_prompt(context)`: collects the critical (Off Track / At
Risk) deliverables from `context["deliverables"]`; returns the
sentinel `None` when there are none, otherwise the joined prompt. -/
def build_prompt (context : Ctx) : Except PyErr (Option String) := do
  let critical_deliverables ←
    if dictContains context "deliverables" then do
      let dv := dictGet context "deliverables" .null
      let elems ← pyAsSeq dv
      elems.foldlM
        (fun acc deliverable => do
          let status ← pyDictGet deliverable "status" (.str "")
          if pyInStrList status ["Off Track", "At Risk"] then do
            let name ← pyDictGet deliverable "deliverable" (.str "Unknown")
            let lead ← pyDictGet deliverable "lead" (.str "Unassigned")
            let risks ← pyDictGet deliverable "risks_issues" (.str "None")
            let nexts ← pyDictGet deliverable "next_steps" (.str "None")
            pure (acc ++ [CriticalItem.mk name status lead risks nexts])
          else
            pure acc)
        []
    else
      pure ([] : List CriticalItem)
  if critical_deliverables.isEmpty then
    pure none
  else do
    let prompt_parts : List String :=
      ["You are an AI Chief of Staff helping a program manager identify concrete next steps.",
       "",
       "## Program Status Overview",
       "Total deliverables: " ++ pyStr (dictGet context "total_deliverables" (.str "Unknown"))]
    let prompt_parts ← (do
      if dictContains context "status_groups" then do
        let sg := dictGet context "status_groups" .null
        let pairs ← pyAsPairSeq sg
        let lines ← pairs.mapM (fun p => do
          let (status, items) := p
          let n ← pyLen items
          pure ("  - " ++ pyStr status ++ ": " ++ toString n ++ " items"))
        pure (prompt_parts ++ ["\nStatus breakdown:"] ++ lines)
      else
        pure prompt_parts)
    let prompt_parts := prompt_parts ++
      ["", "## Critical Deliverables Requiring Attention", ""]
    let prompt_parts := prompt_parts ++
      (critical_deliverables.enum.foldl
        (fun acc p =>
          let (i, item) := p
          let idx := i + 1
          acc ++
            ["### " ++ toString idx ++ ". " ++ pyStr item.name ++
               " (" ++ pyStr item.status ++ ")",
             "**Lead:** " ++ pyStr item.lead,
             "**Risks/Issues:** " ++ pyStr item.risks_issues,
             "**Planned Next Steps:** " ++ pyStr item.next_steps,
             ""])
        [])
    let prompt_parts := prompt_parts ++ task_parts
    pure (some (pyJoin "\n" prompt_parts))

/-- The fence-stripping prologue of `parse_response`: strip the
response, and when it starts with a markdown fence drop the first line
and a trailing fence-marker line. -/
def strip_fences (response : String) : String :=
  let response := pyStrip response
  if pyStartsWith response "```" then
    let lines := pySplitLines response
    let lines := lines.drop 1
    let lines :=
      if ¬ lines.isEmpty ∧ (lines.getLast?.map pyStrip) = some "```" then
        lines.dropLast
      else lines
    pyJoin "\n" lines
  else response

/-- Embedding of `required_fields` of `parse_response`. -/
def required_fields : List String :=
  ["title", "description", "owner", "success_criterion", "confidence"]

/-- The allowed confidence levels. -/
def confidence_levels : List String := ["high", "medium", "low"]

/-- The `for field in required_fields` loop of the validation: raise
on the first field not contained in the action. -/
def check_fields (action : PyVal) (idx : Nat) : List String → Except PyErr Unit
  | [] => .ok ()
  | field :: rest => do
      let present ← pyContains action field
      if present then check_fields action idx rest
      else throw (.valueError ("Action " ++ toString idx ++
        " missing required field: " ++ field))

/-- Validation of one action object: each required field must be
present, and `confidence` must be one of the allowed levels. -/
def check_action (action : PyVal) (idx : Nat) : Except PyErr Unit := do
  check_fields action idx required_fields
  let conf ← pyGetItemStr action "confidence"
  if pyInStrList conf confidence_levels then pure ()
  else throw (.valueError ("Action " ++ toString idx ++
    " has invalid confidence: " ++ pyStr conf))

/-- The `for idx, action in enumerate(data["actions"])` validation
loop. -/
def validate_actions : List PyVal → Nat → Except PyErr Unit
  | [], _ => .ok ()
  | action :: rest, idx => do
      check_action action idx
      validate_actions rest (idx + 1)

/-- The dict returned by the action-items `parse_response`:
`{"actions": ..., "count": len(...)}`. -/
structure ActionsParsed where
  actions : List PyVal
  count : Nat
deriving Repr

/-- Embedding of `parse_response(response)`: strip fences, decode JSON (raising
`ValueError` on failure), require an `actions` list, validate each
action, and return the actions with their count. -/
def parse_response (response : String) : Except PyErr ActionsParsed := do
  let response := strip_fences response
  match jsonDecode response with
  | none =>
      throw (.valueError ("Invalid JSON in action items response: " ++ jsonErrorMsg))
  | some data => do
      let present ← pyContains data "actions"
      if ¬ present then
        throw (.valueError "Response missing 'actions' field")
      else do
        let av ← pyGetItemStr data "actions"
        match av with
        | .list acts => do
            validate_actions acts 0
            pure ⟨acts, acts.length⟩
        | _ => throw (.valueError "'actions' must be a list")

end action_items

/-! ### `reasoning/synthesizer.py`

The provider held by a `ReportSynthesizer` is modelled as a pure
response function: `generate prompt system_prompt max_tokens
temperature` either returns the generated text or raises.  `model` is
the provider's `model` attribute (`none` when the attribute is absent,
in which case `getattr(..., "unknown")` falls back).  `datetime.now().
isoformat()` is modelled by the `now` argument threaded into
`synthesize`.  Each synthesizing helper also reports how many times it
invoked `provider.generate`, so that zero-call claims are statable. -/

/-- The provider instance held by the synthesizer. -/
structure Provider where
  generate : String → String → Int → Rat → Except PyErr String
  model : Option String

namespace ReportSynthesizer

/-- The system prompt passed for executive summaries. -/
def exec_system_prompt : String :=
  "You are an AI assistant helping a technical program manager " ++
  "understand program status. Be concise, specific, and decision-oriented."

/-- The system prompt passed for risk analysis. -/
def risk_system_prompt : String :=
  "You are an AI assistant analyzing program risks. " ++
  "Return valid JSON only. Be concise and specific."

/-- Embedding of `_generate_executive_summary(context)` (build prompt, call the
provider, parse), together with the number of provider calls made. -/
def generate_executive_summary (p : Provider) (max_tokens : Int) (temperature : Rat)
    (context : Ctx) : Except PyErr executive_summary.Parsed × Nat :=
  match executive_summary.build_prompt context with
  | .error e => (.error e, 0)
  | .ok prompt =>
      match p.generate prompt exec_system_prompt max_tokens temperature with
      | .error e => (.error e, 1)
      | .ok response => (.ok (executive_summary.parse_response response), 1)

/-- Embedding of `_analyze_risks(context)`: `None` when the builder returns the
sentinel, otherwise call the provider and parse; with the number of
provider calls made. -/
def analyze_risks (p : Provider) (max_tokens : Int) (temperature : Rat)
    (context : Ctx) : Except PyErr (Option PyVal) × Nat :=
  match risk_analysis.build_prompt context with
  | .error e => (.error e, 0)
  | .ok none => (.ok none, 0)
  | .ok (some prompt) =>
      match p.generate prompt risk_system_prompt max_tokens temperature with
      | .error e => (.error e, 1)
      | .ok response =>
          match risk_analysis.parse_response response with
          | .error e => (.error e, 1)
          | .ok parsed => (.ok (some parsed), 1)

/-- Python `features.get(name, False)` on the features dict. -/
def fget : List (String × Bool) → String → Bool
  | [], _ => false
  | (k, b) :: rest, name => if k = name then b else fget rest name

/-- The default features applied when `features` is `None`. -/
def default_features : List (String × Bool) :=
  [("executive_summary", true), ("risk_analysis", true), ("action_items", false)]

/-- The entries the executive-summary block appends to the synthesis
record (with its provider-call count): the summary and its metadata on
success, `None` plus `executive_summary_error` when the block's try
catches an exception, nothing when the feature is disabled. -/
def exec_entries (p : Provider) (max_tokens : Int) (temperature : Rat)
    (context : Ctx) (features : List (String × Bool)) :
    List (String × PyVal) × Nat :=
  if fget features "executive_summary" then
    match generate_executive_summary p max_tokens temperature context with
    | (.ok r, n) =>
        ([("executive_summary", .str r.summary),
          ("executive_summary_metadata",
            .dict [("length", .int r.length),
                   ("sentence_count", .int r.sentence_count)])], n)
    | (.error e, n) =>
        ([("executive_summary", .null),
          ("executive_summary_error", .str e.msg)], n)
  else ([], 0)

/-- The entries the risk-analysis block appends to the synthesis
record (with its provider-call count): the parsed result when truthy
(`if risk_result:`), nothing when the builder returned the sentinel,
`None` plus `risk_analysis_error` when the block's try catches an
exception. -/
def risk_entries (p : Provider) (max_tokens : Int) (temperature : Rat)
    (context : Ctx) (features : List (String × Bool)) :
    List (String × PyVal) × Nat :=
  if fget features "risk_analysis" then
    match analyze_risks p max_tokens temperature context with
    | (.ok (some v), n) => (if pyTruthy v then [("risk_analysis", v)] else [], n)
    | (.ok none, n) => ([], n)
    | (.error e, n) =>
        ([("risk_analysis", .null),
          ("risk_analysis_error", .str e.msg)], n)
  else ([], 0)

/-- The initial synthesis record: `generated_at` and the provider's
`model` attribute (`getattr(self.provider, "model", "unknown")`). -/
def base_record (p : Provider) (now : String) : List (String × PyVal) :=
  [("generated_at", .str now), ("model", .str (p.model.getD "unknown"))]

/-- The completed synthesis record of one `synthesize` call (in
insertion order: `generated_at`, `model`, then the per-feature
entries), paired with the total number of provider calls.  There is no
action-items block: `synthesize` in the source only dispatches the
`executive_summary` and `risk_analysis` features. -/
def synth_record (p : Provider) (max_tokens : Int) (temperature : Rat) (now : String)
    (context : Ctx) (features : Option (List (String × Bool))) :
    List (String × PyVal) × Nat :=
  let features := features.getD default_features
  let e := exec_entries p max_tokens temperature context features
  let r := risk_entries p max_tokens temperature context features
  (base_record p now ++ e.1 ++ r.1, e.2 + r.2)

/-- Embedding of `synthesize(context, features)`: returns `{**context, "synthesis":
synthesis}` (a fresh mapping; the input is read, never written),
paired with the total number of `provider.generate` calls made. -/
def synthesize (p : Provider) (max_tokens : Int) (temperature : Rat) (now : String)
    (context : Ctx) (features : Option (List (String × Bool))) : Ctx × Nat :=
  let rec_calls := synth_record p max_tokens temperature now context features
  (dictSet context "synthesis" (.dict rec_calls.1), rec_calls.2)

end ReportSynthesizer

/-! ### `reasoning/provider.py` — `AnthropicProvider.generate`

The Anthropic SDK call `self.client.messages.create(...)` is modelled
by a `transport` function from the attempt number to either a response
(generated text plus reported input/output token counts) or a raised
error message; the model returns, besides the call's result, the
updated cumulative token counters and how many times the transport was
invoked.  The backoff `time.sleep` has no observable effect here. -/

namespace AnthropicProvider

/-- One successful transport response: extracted text and the usage
counts. -/
structure GenResponse where
  text : String
  input_tokens : Int
  output_tokens : Int

/-- The retry loop of `generate` (`for attempt in range(max_retries)`),
with `remaining` the number of attempts left: on success, add the
response usage to the counters and return the text; on failure record
the error and retry; after exhausting retries raise `LLMProviderError`
wrapping the last error (`str(None) = "None"` when no attempt ran). -/
def retry_loop (transport : Nat → Except String GenResponse) (max_retries : Nat) :
    Nat → Nat → Int × Int → Option String → Nat →
    Except PyErr String × (Int × Int) × Nat
  | _, 0, tokens, last_error, calls =>
      (.error (.providerError
        ("Failed to generate response after " ++ toString max_retries ++
         " attempts: " ++ (match last_error with | none => "None" | some e => e))),
       tokens, calls)
  | attempt, remaining + 1, tokens, _, calls =>
      match transport attempt with
      | .ok resp =>
          (.ok resp.text,
           (tokens.1 + resp.input_tokens, tokens.2 + resp.output_tokens),
           calls + 1)
      | .error e =>
          retry_loop transport max_retries (attempt + 1) remaining tokens (some e) (calls + 1)

/-- Embedding of `AnthropicProvider.generate(prompt, system_prompt, max_tokens,
temperature)`: validate the arguments (raising `ValueError` before any
transport call), then run the retry loop.  Result: the call's outcome,
the updated token counters, and the number of transport invocations. -/
def generate (transport : Nat → Except String GenResponse) (max_retries : Nat)
    (tokens : Int × Int) (prompt : String) (max_tokens : Int) (temperature : Rat) :
    Except PyErr String × (Int × Int) × Nat :=
  if prompt = "" ∨ pyStrip prompt = "" then
    (.error (.valueError "Prompt cannot be empty"), tokens, 0)
  else if max_tokens ≤ 0 then
    (.error (.valueError "max_tokens must be positive"), tokens, 0)
  else if ¬ (0 ≤ temperature ∧ temperature ≤ 1) then
    (.error (.valueError "temperature must be between 0.0 and 1.0"), tokens, 0)
  else
    retry_loop transport max_retries 0 max_retries tokens none 0

end AnthropicProvider

/-! ### Spec-side predicates

These definitions follow the wording of the spec/claims (not the
source); the theorems below relate them to the embedded code. -/

/-- Whether a Python value is a list. -/
def is_py_list : PyVal → Bool
  | .list _ => true
  | _ => false

/-- Claim C6's hypothesis on one deliverable record: it is a dict whose
`risks_issues` value is absent, or is a string that (trimmed and
lowercased) belongs to the boilerplate set. -/
def boilerplate_item (item : PyVal) : Bool :=
  match item with
  | .dict fs =>
      match dictLookup fs "risks_issues" with
      | none => true
      | some (.str s) => risk_analysis.boilerplate.contains (pyLower (pyStrip s))
      | some _ => false
  | _ => false

/-- Claim C6's hypothesis on one status group: a (status,
deliverables) pair whose deliverables all satisfy
`boilerplate_item`. -/
def group_boilerplate (g : PyVal) : Bool :=
  match g with
  | .tuple [_, .list items] => items.all boilerplate_item
  | .list [_, .list items] => items.all boilerplate_item
  | _ => false

/-- Claim C6's hypothesis on a `status_groups` value: a sequence of
(status, deliverables) pairs in which every deliverable satisfies
`boilerplate_item`. -/
def all_boilerplate_risks (sg : PyVal) : Bool :=
  match sg with
  | .list groups => groups.all group_boilerplate
  | _ => false

/-- Claim C3's description of back-filling: add each of the three
array keys only when absent. -/
def backfill_absent (fs : List (String × PyVal)) : List (String × PyVal) :=
  let fs := if dictContains fs "themes" then fs else dictSet fs "themes" (.list [])
  let fs := if dictContains fs "critical_risks" then fs
            else dictSet fs "critical_risks" (.list [])
  if dictContains fs "anomalies" then fs else dictSet fs "anomalies" (.list [])

/-- Claim C7's description of a valid action object: a dict containing
every required field, whose `confidence` is one of the allowed
levels. -/
def action_valid (a : PyVal) : Bool :=
  match a with
  | .dict fs =>
      action_items.required_fields.all (fun f => dictContains fs f) &&
      pyInStrList (dictGet fs "confidence" .null) action_items.confidence_levels
  | _ => false

/-- Claim C7's failure condition on a decoded response: decoding
failed, or the `actions` key is missing, or its value is not a list,
or some action object is invalid (missing required field or bad
confidence). -/
def invalid_actions_response (d : Option PyVal) : Prop :=
  d = none ∨
  ∃ fs, d = some (.dict fs) ∧
    (dictContains fs "actions" = false ∨
     (∃ av, dictLookup fs "actions" = some av ∧ is_py_list av = false) ∨
     (∃ xs, dictLookup fs "actions" = some (.list xs) ∧ xs.all action_valid = false))

/-- Claim C7's (amended) domain restriction: if the response decodes,
it decodes to an object, and the elements of its `actions` list (when
it is a list) are objects. -/
def object_shaped_response (d : Option PyVal) : Prop :=
  ∀ v, d = some v →
    (∃ fs, v = .dict fs) ∧
    ∀ fs xs, v = .dict fs → dictLookup fs "actions" = some (.list xs) →
      ∀ a ∈ xs, ∃ afs, a = .dict afs

/-! ### Sample inputs used by witnesses -/

/-- A provider whose `generate` raises on every call. -/
def err_provider : Provider :=
  ⟨fun _ _ _ _ => .error (.providerError "API down"), some "claude-sonnet-4-5-20250929"⟩

/-- A context with one At Risk deliverable carrying a real
(non-boilerplate) risk, under both conventional keys. -/
def risky_ctx : Ctx :=
  [("total_deliverables", .int 1),
   ("status_groups", .list
     [.tuple [.str "At Risk", .list
       [.dict [("deliverable", .str "A"), ("risks_issues", .str "Real risk")]]]]),
   ("deliverables", .list
     [.dict [("deliverable", .str "A"), ("status", .str "At Risk"),
             ("risks_issues", .str "Real risk")]])]

/-- A context whose only deliverable reports a boilerplate risk. -/
def boiler_ctx : Ctx :=
  [("total_deliverables", .int 2),
   ("status_groups", .list
     [.tuple [.str "On Track", .list
       [.dict [("deliverable", .str "A"), ("risks_issues", .str "None")],
        .dict [("deliverable", .str "B"),
               ("risks_issues", .str " no risks or issues reported this week ")]]]])]

/-- A context that already carries a `synthesis` key. -/
def presyn_ctx : Ctx := [("synthesis", .str "old value"), ("a", .int 1)]

/-- An action-items response whose `actions` list holds one fully
valid action. -/
def good_actions_json : String :=
  "\x7b\"actions\": [\x7b\"title\": \"Escalate\", \"description\": \"d\", " ++
  "\"owner\": \"PM\", \"success_criterion\": \"done\", \"confidence\": \"high\"\x7d]\x7d"

/-- The decoded fields of `good_actions_json`'s single action. -/
def good_action_fields : List (String × PyVal) :=
  [("title", .str "Escalate"), ("description", .str "d"), ("owner", .str "PM"),
   ("success_criterion", .str "done"), ("confidence", .str "high")]

/-- An action-items response with an invalid confidence value. -/
def bad_confidence_json : String :=
  "\x7b\"actions\": [\x7b\"title\": \"t\", \"description\": \"d\", \"owner\": \"o\", " ++
  "\"success_criterion\": \"s\", \"confidence\": \"super-high\"\x7d]\x7d"

/-- An action-items response whose action is missing the `owner`
field. -/
def missing_owner_json : String :=
  "\x7b\"actions\": [\x7b\"title\": \"t\", \"description\": \"d\", " ++
  "\"success_criterion\": \"s\", \"confidence\": \"high\"\x7d]\x7d"

/-! ### Association-list (Python dict) lemmas -/

/-- Looking up the key just set yields the new value. -/
theorem dictLookup_dictSet_self (l : List (String × PyVal)) (k : String) (v : PyVal) :
    dictLookup (dictSet l k v) k = some v := by
  induction l with
  | nil => simp [dictSet, dictLookup]
  | cons h t ih =>
      by_cases hk : h.1 = k
      · simp [dictSet, hk, dictLookup]
      · simp [dictSet, hk, dictLookup, ih]

/-- Setting one key leaves every other key's binding unchanged. -/
theorem dictLookup_dictSet_ne (l : List (String × PyVal)) (k k' : String) (v : PyVal)
    (h : k' ≠ k) : dictLookup (dictSet l k v) k' = dictLookup l k' := by
  induction l with
  | nil =>
      have hne : ¬ k = k' := fun hh => h hh.symm
      simp [dictSet, dictLookup, hne]
  | cons hd t ih =>
      by_cases hk : hd.1 = k
      · subst hk
        have hne : ¬ hd.1 = k' := fun hh => h hh.symm
        simp [dictSet, dictLookup, hne]
      · simp only [dictSet, if_neg hk]
        by_cases hk' : hd.1 = k'
        · simp [dictLookup, hk']
        · simp [dictLookup, hk', ih]

/-- Key membership after a set: the old keys plus the set key. -/
theorem dictContains_dictSet (l : List (String × PyVal)) (k k' : String) (v : PyVal) :
    dictContains (dictSet l k v) k' = true ↔
      (dictContains l k' = true ∨ k' = k) := by
  by_cases h : k' = k
  · subst h
    simp [dictContains, dictLookup_dictSet_self]
  · rw [dictContains, dictContains, dictLookup_dictSet_ne l k k' v h]
    simp [h]

/-! ### Claim theorems -/

/-- C5: with all features disabled (`features = {}`), `synthesize`
returns the input context with exactly one added/overwritten key,
`synthesis`, bound to the record holding only `generated_at` and
`model` (no feature or error keys), and makes zero provider calls. -/
theorem c5_all_features_disabled (p : Provider) (max_tokens : Int) (temperature : Rat)
    (now : String) (context : Ctx) :
    ReportSynthesizer.synthesize p max_tokens temperature now context (some []) =
      (dictSet context "synthesis" (.dict (ReportSynthesizer.base_record p now)), 0) ∧
    dictLookup (ReportSynthesizer.base_record p now) "generated_at" = some (.str now) ∧
    dictLookup (ReportSynthesizer.base_record p now) "model" =
      some (.str (p.model.getD "unknown")) ∧
    dictLookup (ReportSynthesizer.base_record p now) "executive_summary" = none ∧
    dictLookup (ReportSynthesizer.base_record p now) "executive_summary_error" = none ∧
    dictLookup (ReportSynthesizer.base_record p now) "risk_analysis" = none ∧
    dictLookup (ReportSynthesizer.base_record p now) "risk_analysis_error" = none ∧
    dictLookup (ReportSynthesizer.base_record p now) "action_items" = none ∧
    dictLookup (ReportSynthesizer.base_record p now) "action_items_error" = none :=
  ⟨rfl, rfl, rfl, rfl, rfl, rfl, rfl, rfl, rfl⟩

/-- C4: `synthesize` returns a new mapping whose keys are exactly the
input context's keys plus `synthesis`; every key other than
`synthesis` keeps its input value, and (the embedding being a pure
function of the context) the input context value itself is not
modified. -/
theorem c4_synthesize_preserves_context (p : Provider) (max_tokens : Int)
    (temperature : Rat) (now : String) (context : Ctx)
    (features : Option (List (String × Bool))) :
    (∀ k, k ≠ "synthesis" →
      dictLookup (ReportSynthesizer.synthesize p max_tokens temperature now context features).1 k =
        dictLookup context k) ∧
    (∀ k,
      dictContains (ReportSynthesizer.synthesize p max_tokens temperature now context features).1 k = true ↔
        (dictContains context k = true ∨ k = "synthesis")) ∧
    dictLookup (ReportSynthesizer.synthesize p max_tokens temperature now context features).1 "synthesis" =
      some (.dict (ReportSynthesizer.synth_record p max_tokens temperature now context features).1) :=
  ⟨fun k hk => dictLookup_dictSet_ne context "synthesis" k _ hk,
   fun k => dictContains_dictSet context "synthesis" k _,
   dictLookup_dictSet_self context "synthesis" _⟩

/-- Witness for C4 at a concrete context and key. -/
theorem c4_witness :
    dictLookup (ReportSynthesizer.synthesize err_provider 500 0 "T" risky_ctx none).1
        "total_deliverables" = dictLookup risky_ctx "total_deliverables" ∧
    (dictContains (ReportSynthesizer.synthesize err_provider 500 0 "T" risky_ctx none).1
        "synthesis" = true ↔
      (dictContains risky_ctx "synthesis" = true ∨ "synthesis" = "synthesis")) :=
  ⟨(c4_synthesize_preserves_context err_provider 500 0 "T" risky_ctx none).1
      "total_deliverables" (by decide),
   (c4_synthesize_preserves_context err_provider 500 0 "T" risky_ctx none).2.1 "synthesis"⟩

/-- C9: when the input context already contains a `synthesis` key, the
output binds `synthesis` to the freshly generated record (the old
value is replaced), and every other key keeps its input value. -/
theorem c9_synthesis_key_replaced (p : Provider) (max_tokens : Int) (temperature : Rat)
    (now : String) (context : Ctx) (features : Option (List (String × Bool)))
    (v : PyVal) (_h : dictLookup context "synthesis" = some v) :
    dictLookup (ReportSynthesizer.synthesize p max_tokens temperature now context features).1 "synthesis" =
      some (.dict (ReportSynthesizer.synth_record p max_tokens temperature now context features).1) ∧
    (∀ k, k ≠ "synthesis" →
      dictLookup (ReportSynthesizer.synthesize p max_tokens temperature now context features).1 k =
        dictLookup context k) :=
  ⟨dictLookup_dictSet_self context "synthesis" _,
   fun k hk => dictLookup_dictSet_ne context "synthesis" k _ hk⟩

/-- Witness for C9 at a context that already holds a `synthesis`
binding. -/
theorem c9_witness :
    dictLookup (ReportSynthesizer.synthesize err_provider 500 0 "T" presyn_ctx (some [])).1 "synthesis" =
      some (.dict (ReportSynthesizer.synth_record err_provider 500 0 "T" presyn_ctx (some [])).1) ∧
    dictLookup (ReportSynthesizer.synthesize err_provider 500 0 "T" presyn_ctx (some [])).1 "a" =
      dictLookup presyn_ctx "a" :=
  ⟨(c9_synthesis_key_replaced err_provider 500 0 "T" presyn_ctx (some [])
      (.str "old value") rfl).1,
   (c9_synthesis_key_replaced err_provider 500 0 "T" presyn_ctx (some [])
      (.str "old value") rfl).2 "a" (by decide)⟩

/-- C1 (code bug evaluation): on a context with an At Risk deliverable
the action-items builder returns a real prompt (not the sentinel), yet
`synthesize` with `action_items` enabled makes zero provider calls and
writes neither `action_items` nor `action_items_error` — the feature
flag is silently ignored because `synthesize` has no action-items
dispatch. -/
theorem c1_action_items_never_dispatched (p : Provider) (max_tokens : Int)
    (temperature : Rat) (now : String) :
    (∃ s, action_items.build_prompt risky_ctx = .ok (some s)) ∧
    ReportSynthesizer.synthesize p max_tokens temperature now risky_ctx
        (some [("action_items", true)]) =
      (dictSet risky_ctx "synthesis" (.dict (ReportSynthesizer.base_record p now)), 0) ∧
    dictLookup (ReportSynthesizer.base_record p now) "action_items" = none ∧
    dictLookup (ReportSynthesizer.base_record p now) "action_items_error" = none :=
  ⟨⟨_, rfl⟩, rfl, rfl, rfl⟩

/-- C2: an exception inside an enabled feature's pipeline is caught at
that feature's boundary: the feature's main key is written `null` and
`{feature}_error` carries the exception's message, while the other
feature's block still runs on the original context (the risk entries
do not depend on the executive-summary outcome). -/
theorem c2_feature_errors_contained (p : Provider) (max_tokens : Int) (temperature : Rat)
    (now : String) (context : Ctx) (features : List (String × Bool))
    (e1 e2 : PyErr) (n1 n2 : Nat) :
    (ReportSynthesizer.fget features "executive_summary" = true →
      ReportSynthesizer.generate_executive_summary p max_tokens temperature context =
        (.error e1, n1) →
      (ReportSynthesizer.synth_record p max_tokens temperature now context (some features)).1 =
        ReportSynthesizer.base_record p now ++
        [("executive_summary", .null), ("executive_summary_error", .str e1.msg)] ++
        (ReportSynthesizer.risk_entries p max_tokens temperature context features).1) ∧
    (ReportSynthesizer.fget features "risk_analysis" = true →
      ReportSynthesizer.analyze_risks p max_tokens temperature context = (.error e2, n2) →
      ReportSynthesizer.risk_entries p max_tokens temperature context features =
        ([("risk_analysis", .null), ("risk_analysis_error", .str e2.msg)], n2)) := by
  constructor
  · intro h1 h2
    simp [ReportSynthesizer.synth_record, ReportSynthesizer.exec_entries, h1, h2]
  · intro h1 h2
    simp [ReportSynthesizer.risk_entries, h1, h2]

/-- Witness for C2: a provider that raises on every call leaves
`executive_summary = null` with the message recorded, and the risk
block still records its own error. -/
theorem c2_witness :
    (ReportSynthesizer.synth_record err_provider 500 0 "T" risky_ctx
        (some [("executive_summary", true), ("risk_analysis", true)])).1 =
      ReportSynthesizer.base_record err_provider "T" ++
      [("executive_summary", .null), ("executive_summary_error", .str "API down")] ++
      (ReportSynthesizer.risk_entries err_provider 500 0 risky_ctx
        [("executive_summary", true), ("risk_analysis", true)]).1 ∧
    ReportSynthesizer.risk_entries err_provider 500 0 risky_ctx
        [("executive_summary", true), ("risk_analysis", true)] =
      ([("risk_analysis", .null), ("risk_analysis_error", .str "API down")], 1) :=
  ⟨(c2_feature_errors_contained err_provider 500 0 "T" risky_ctx
      [("executive_summary", true), ("risk_analysis", true)]
      (.providerError "API down") (.providerError "API down") 1 1).1 rfl (by rfl),
   (c2_feature_errors_contained err_provider 500 0 "T" risky_ctx
      [("executive_summary", true), ("risk_analysis", true)]
      (.providerError "API down") (.providerError "API down") 1 1).2 rfl (by rfl)⟩

/-- C8: `AnthropicProvider.generate` rejects an empty/whitespace-only
prompt, a non-positive `max_tokens`, or an out-of-range temperature
with `ValueError` before any transport call: the transport is invoked
zero times and no retry happens. -/
theorem c8_invalid_args_no_network (transport : Nat → Except String AnthropicProvider.GenResponse)
    (max_retries : Nat) (tokens : Int × Int) (prompt : String) (max_tokens : Int)
    (temperature : Rat)
    (h : prompt = "" ∨ pyStrip prompt = "" ∨ max_tokens ≤ 0 ∨
         temperature < 0 ∨ 1 < temperature) :
    ∃ m, AnthropicProvider.generate transport max_retries tokens prompt max_tokens temperature =
      (.error (.valueError m), tokens, 0) := by
  by_cases h1 : prompt = "" ∨ pyStrip prompt = ""
  · exact ⟨"Prompt cannot be empty", by simp [AnthropicProvider.generate, h1]⟩
  · by_cases h2 : max_tokens ≤ 0
    · exact ⟨"max_tokens must be positive", by simp [AnthropicProvider.generate, h1, h2]⟩
    · have h3 : ¬ (0 ≤ temperature ∧ temperature ≤ 1) := by
        rcases h with h | h | h | h | h
        · exact absurd (Or.inl h) h1
        · exact absurd (Or.inr h) h1
        · exact absurd h h2
        · exact fun hc => absurd hc.1 (not_le.mpr h)
        · exact fun hc => absurd hc.2 (not_le.mpr h)
      exact ⟨"temperature must be between 0.0 and 1.0",
        by simp [AnthropicProvider.generate, h1, h2, h3]⟩

/-- Reduction of the `Except` monad's bind on a success value. -/
theorem except_bind_ok {α β ε : Type} (a : α) (f : α → Except ε β) :
    (Except.ok a : Except ε α) >>= f = f a := rfl

/-- Reduction of the `Except` monad's bind on an error value. -/
theorem except_bind_err {α β ε : Type} (e : ε) (f : α → Except ε β) :
    (Except.error e : Except ε α) >>= f = Except.error e := rfl

/-- Reduction of the `Except` monad's `pure`. -/
theorem except_pure_eq {α ε : Type} (a : α) :
    (pure a : Except ε α) = Except.ok a := rfl

/-- Backfilling one key of a decoded dict: keep the dict when the key
is present, otherwise append the key bound to an empty list. -/
theorem backfill_key_dict (fs : List (String × PyVal)) (k : String) :
    risk_analysis.backfill_key (.dict fs) k =
      .ok (.dict (if dictContains fs k then fs else dictSet fs k (.list []))) := by
  by_cases h : dictContains fs k <;>
    simp [risk_analysis.backfill_key, pyContains, pySetItemStr, h, except_bind_ok,
      except_pure_eq]

/-- C3 counterexample: `"[]"` is valid JSON, so the claim requires the
decoded value back-filled and returned, yet `parse_response` raises a
`TypeError` (the decoded value is a list and `data["themes"] = []`
fails). -/
theorem c3_counterexample :
    jsonDecode (pyStrip "[]") = some (.list []) ∧
    risk_analysis.parse_response "[]" =
      .error (.typeError "list indices must be integers or slices, not str") :=
  ⟨rfl, rfl⟩

/-- C3 amended: for every input, when JSON decoding fails
`parse_response` returns the fallback record (empty `themes`,
`critical_risks`, `anomalies` plus a non-empty `parse_error`), and
when decoding succeeds with a JSON object it returns that object with
any absent array key back-filled with an empty array.  (A successful
decode to a non-object raises, per the counterexample.) -/
theorem c3_parse_response_amended (s : String) (fs : List (String × PyVal)) :
    (jsonDecode (pyStrip s) = none →
      risk_analysis.parse_response s = .ok risk_analysis.fallback_result ∧
      jsonErrorMsg ≠ "") ∧
    (jsonDecode (pyStrip s) = some (.dict fs) →
      risk_analysis.parse_response s = .ok (.dict (backfill_absent fs))) := by
  constructor
  · intro h
    refine ⟨?_, by decide⟩
    simp [risk_analysis.parse_response, h]
  · intro h
    by_cases h1 : dictContains fs "themes" <;>
      by_cases h2 : dictContains (if dictContains fs "themes" then fs
        else dictSet fs "themes" (.list [])) "critical_risks" <;>
      simp_all [risk_analysis.parse_response, backfill_key_dict, except_bind_ok,
        backfill_absent]

/-- Witness for C3 amended: a malformed input maps to the fallback,
and a decoded empty object gets all three keys back-filled. -/
theorem c3_witness :
    (risk_analysis.parse_response "[1" = .ok risk_analysis.fallback_result ∧
      jsonErrorMsg ≠ "") ∧
    risk_analysis.parse_response "\x7b\x7d" = .ok (.dict (backfill_absent [])) :=
  ⟨(c3_parse_response_amended "[1" []).1 rfl,
   (c3_parse_response_amended "\x7b\x7d" []).2 rfl⟩

/-- A boilerplate deliverable contributes nothing to the extracted
risk list. -/
theorem extract_step_boiler (status : PyVal) (acc : List risk_analysis.RiskEntry)
    (item : PyVal) (h : boilerplate_item item = true) :
    risk_analysis.extract_step status acc item = .ok acc := by
  unfold boilerplate_item at h
  split at h
  · rename_i fs
    unfold risk_analysis.extract_step
    simp only [pyDictGet, except_bind_ok]
    split at h
    · rename_i hlook
      simp [dictGet, hlook, pyAsStr, except_bind_ok, except_pure_eq, pyStrip, dropWsLeft]
    · rename_i s hlook
      by_cases he : pyStrip s = ""
      · simp [dictGet, hlook, pyAsStr, except_bind_ok, except_pure_eq, he]
      · have hmem : pyLower (pyStrip s) ∈ risk_analysis.boilerplate := by simpa using h
        simp [dictGet, hlook, pyAsStr, except_bind_ok, except_pure_eq, he, hmem]
    · rename_i hlook
      simp at h
  · simp at h

/-- Inversion of `group_boilerplate`: the group is a two-element pair
whose second component is a list of boilerplate deliverables. -/
theorem group_boilerplate_inv (g : PyVal) (h : group_boilerplate g = true) :
    ∃ st items, (g = .tuple [st, .list items] ∨ g = .list [st, .list items]) ∧
      items.all boilerplate_item = true := by
  unfold group_boilerplate at h
  split at h
  · rename_i st items
    exact ⟨st, items, Or.inl rfl, h⟩
  · rename_i st items
    exact ⟨st, items, Or.inr rfl, h⟩
  · simp at h

/-- A status group of boilerplate deliverables contributes nothing to
the extracted risk list. -/
theorem extract_group_boiler (status : PyVal) (items : List PyVal)
    (acc : List risk_analysis.RiskEntry) (h : items.all boilerplate_item = true) :
    risk_analysis.extract_group acc (status, .list items) = .ok acc := by
  unfold risk_analysis.extract_group
  simp only [pyAsSeq, except_bind_ok]
  induction items generalizing acc with
  | nil => simp [except_pure_eq]
  | cons item rest ih =>
      simp only [List.all_cons, Bool.and_eq_true] at h
      simp [List.foldlM_cons, extract_step_boiler status acc item h.1, except_bind_ok,
        except_pure_eq, ih acc h.2]

/-- When every deliverable in every status group is boilerplate,
`_extract_risks` yields the empty list. -/
theorem extract_risks_boiler (sg : PyVal) (h : all_boilerplate_risks sg = true) :
    risk_analysis.extract_risks sg = .ok [] := by
  unfold all_boilerplate_risks at h
  split at h
  · rename_i groups
    unfold risk_analysis.extract_risks
    simp only [pyAsPairSeq, pyAsSeq, except_bind_ok]
    suffices haux : ∀ (gs : List PyVal) (acc : List risk_analysis.RiskEntry),
        gs.all group_boilerplate = true →
        (mapUnpack2 gs >>= fun pairs =>
          pairs.foldlM risk_analysis.extract_group acc) = .ok acc by
      exact haux groups [] h
    intro gs
    induction gs with
    | nil => intro acc _; simp [mapUnpack2, except_pure_eq, except_bind_ok]
    | cons g rest ih =>
        intro acc hall
        simp only [List.all_cons, Bool.and_eq_true] at hall
        obtain ⟨st, items, hshape, hitems⟩ := group_boilerplate_inv g hall.1
        have hu : pyUnpack2 g = .ok (st, .list items) := by
          rcases hshape with rfl | rfl <;> rfl
        have hrest := ih acc hall.2
        rcases hm : mapUnpack2 rest with e | pairs
        · rw [hm] at hrest
          simp [except_bind_err] at hrest
        · rw [hm, except_bind_ok] at hrest
          simp [mapUnpack2, hu, hm, except_bind_ok, except_pure_eq,
            List.foldlM_cons, extract_group_boiler st items acc hitems, hrest]
  · simp at h

/-- C6: when no deliverable in any status group carries a
non-boilerplate risk text, the risk-analysis builder returns the
sentinel, and `synthesize` with `risk_analysis` enabled writes no
`risk_analysis` or `risk_analysis_error` key at all while making zero
provider calls. -/
theorem c6_boilerplate_risks_sentinel (p : Provider) (max_tokens : Int)
    (temperature : Rat) (now : String) (context : Ctx)
    (h : all_boilerplate_risks (dictGet context "status_groups" (.list [])) = true) :
    risk_analysis.build_prompt context = .ok none ∧
    ReportSynthesizer.synthesize p max_tokens temperature now context
        (some [("risk_analysis", true)]) =
      (dictSet context "synthesis" (.dict (ReportSynthesizer.base_record p now)), 0) ∧
    dictLookup (ReportSynthesizer.base_record p now) "risk_analysis" = none ∧
    dictLookup (ReportSynthesizer.base_record p now) "risk_analysis_error" = none := by
  have hb : risk_analysis.build_prompt context = .ok none := by
    unfold risk_analysis.build_prompt
    simp [extract_risks_boiler _ h, except_bind_ok, except_pure_eq]
  refine ⟨hb, ?_, rfl, rfl⟩
  unfold ReportSynthesizer.synthesize ReportSynthesizer.synth_record
    ReportSynthesizer.exec_entries ReportSynthesizer.risk_entries
    ReportSynthesizer.analyze_risks
  rw [hb]
  simp [ReportSynthesizer.fget]

/-- Witness for C6 at a concrete boilerplate-only context. -/
theorem c6_witness :
    risk_analysis.build_prompt boiler_ctx = .ok none ∧
    ReportSynthesizer.synthesize err_provider 500 0 "T" boiler_ctx
        (some [("risk_analysis", true)]) =
      (dictSet boiler_ctx "synthesis"
        (.dict (ReportSynthesizer.base_record err_provider "T")), 0) ∧
    dictLookup (ReportSynthesizer.base_record err_provider "T") "risk_analysis" = none ∧
    dictLookup (ReportSynthesizer.base_record err_provider "T") "risk_analysis_error" = none :=
  c6_boilerplate_risks_sentinel err_provider 500 0 "T" boiler_ctx (by decide)

/-- Reduction of `throw` in the `Except` monad. -/
theorem except_throw {α ε : Type} (e : ε) :
    (throw e : Except ε α) = Except.error e := rfl

/-- Validating a valid action object succeeds. -/
theorem check_action_ok (afs : List (String × PyVal)) (idx : Nat)
    (h : action_valid (.dict afs) = true) :
    action_items.check_action (.dict afs) idx = .ok () := by
  simp only [action_valid, Bool.and_eq_true] at h
  obtain ⟨h1, h2⟩ := h
  simp only [action_items.required_fields, List.all_cons, List.all_nil, Bool.and_eq_true,
    and_true] at h1
  obtain ⟨ht, hd, ho, hs, hc⟩ := h1
  obtain ⟨c, hcc⟩ : ∃ c, dictLookup afs "confidence" = some c := by
    rcases hx : dictLookup afs "confidence" with _ | c
    · rw [dictContains, hx] at hc
      simp at hc
    · exact ⟨c, rfl⟩
  simp only [dictGet, hcc, Option.getD_some] at h2
  unfold action_items.check_action
  simp [action_items.check_fields, action_items.required_fields, pyContains,
    ht, hd, ho, hs, hc, except_bind_ok, pyGetItemStr, hcc, h2, except_pure_eq]

/-- Validating an invalid action object raises a `ValueError`. -/
theorem check_action_err (afs : List (String × PyVal)) (idx : Nat)
    (h : action_valid (.dict afs) = false) :
    ∃ m, action_items.check_action (.dict afs) idx = .error (.valueError m) := by
  by_cases c1 : dictContains afs "title" = true
  case neg =>
    simp only [Bool.not_eq_true] at c1
    refine ⟨"Action " ++ toString idx ++ " missing required field: " ++ "title", ?_⟩
    simp [action_items.check_action, action_items.check_fields,
      action_items.required_fields, pyContains, c1, except_bind_ok, except_bind_err,
      except_throw]
  by_cases c2 : dictContains afs "description" = true
  case neg =>
    simp only [Bool.not_eq_true] at c2
    refine ⟨"Action " ++ toString idx ++ " missing required field: " ++ "description", ?_⟩
    simp [action_items.check_action, action_items.check_fields,
      action_items.required_fields, pyContains, c1, c2, except_bind_ok, except_bind_err,
      except_throw]
  by_cases c3 : dictContains afs "owner" = true
  case neg =>
    simp only [Bool.not_eq_true] at c3
    refine ⟨"Action " ++ toString idx ++ " missing required field: " ++ "owner", ?_⟩
    simp [action_items.check_action, action_items.check_fields,
      action_items.required_fields, pyContains, c1, c2, c3, except_bind_ok,
      except_bind_err, except_throw]
  by_cases c4 : dictContains afs "success_criterion" = true
  case neg =>
    simp only [Bool.not_eq_true] at c4
    refine ⟨"Action " ++ toString idx ++ " missing required field: " ++
      "success_criterion", ?_⟩
    simp [action_items.check_action, action_items.check_fields,
      action_items.required_fields, pyContains, c1, c2, c3, c4, except_bind_ok,
      except_bind_err, except_throw]
  by_cases c5 : dictContains afs "confidence" = true
  case neg =>
    simp only [Bool.not_eq_true] at c5
    refine ⟨"Action " ++ toString idx ++ " missing required field: " ++ "confidence", ?_⟩
    simp [action_items.check_action, action_items.check_fields,
      action_items.required_fields, pyContains, c1, c2, c3, c4, c5, except_bind_ok,
      except_bind_err, except_throw]
  obtain ⟨c, hcc⟩ : ∃ c, dictLookup afs "confidence" = some c := by
    rcases hx : dictLookup afs "confidence" with _ | c
    · rw [dictContains, hx] at c5
      simp at c5
    · exact ⟨c, rfl⟩
  have hbad : pyInStrList c action_items.confidence_levels = false := by
    simp only [action_valid, action_items.required_fields, List.all_cons, List.all_nil,
      c1, c2, c3, c4, c5, dictGet, hcc, Option.getD_some, Bool.and_true, Bool.true_and,
      and_true] at h
    exact h
  refine ⟨"Action " ++ toString idx ++ " has invalid confidence: " ++ pyStr c, ?_⟩
  simp [action_items.check_action, action_items.check_fields,
    action_items.required_fields, pyContains, c1, c2, c3, c4, c5, except_bind_ok,
    pyGetItemStr, hcc, hbad, except_throw]

/-- The validation loop succeeds on a list of valid action objects. -/
theorem validate_actions_ok : ∀ (xs : List PyVal) (idx : Nat),
    (∀ a ∈ xs, ∃ afs, a = .dict afs) → xs.all action_valid = true →
    action_items.validate_actions xs idx = .ok () := by
  intro xs
  induction xs with
  | nil => intro idx _ _; rfl
  | cons a rest ih =>
      intro idx hobj h
      simp only [List.all_cons, Bool.and_eq_true] at h
      obtain ⟨afs, rfl⟩ := hobj a (List.mem_cons_self a rest)
      unfold action_items.validate_actions
      simp [check_action_ok afs idx h.1, except_bind_ok,
        ih (idx + 1) (fun b hb => hobj b (List.mem_cons_of_mem _ hb)) h.2]

/-- The validation loop raises a `ValueError` when some action object
is invalid (given that every action is an object). -/
theorem validate_actions_err : ∀ (xs : List PyVal) (idx : Nat),
    (∀ a ∈ xs, ∃ afs, a = .dict afs) → xs.all action_valid = false →
    ∃ m, action_items.validate_actions xs idx = .error (.valueError m) := by
  intro xs
  induction xs with
  | nil => intro idx _ h; simp at h
  | cons a rest ih =>
      intro idx hobj h
      obtain ⟨afs, rfl⟩ := hobj a (List.mem_cons_self a rest)
      by_cases ha : action_valid (.dict afs) = true
      · simp only [List.all_cons, ha, Bool.true_and] at h
        obtain ⟨m, hm⟩ :=
          ih (idx + 1) (fun b hb => hobj b (List.mem_cons_of_mem _ hb)) h
        exact ⟨m, by
          unfold action_items.validate_actions
          simp [check_action_ok afs idx ha, except_bind_ok, hm]⟩
      · simp only [Bool.not_eq_true] at ha
        obtain ⟨m, hm⟩ := check_action_err afs idx ha
        exact ⟨m, by
          unfold action_items.validate_actions
          simp [hm, except_bind_err]⟩

/-- C7 counterexample: `"0"` decodes successfully (so the claim
requires either a `ValidationError` or a parsed result), yet
`parse_response` raises a `TypeError` at the `"actions" not in data`
membership test. -/
theorem c7_counterexample :
    jsonDecode (action_items.strip_fences "0") = some (.int 0) ∧
    action_items.parse_response "0" =
      .error (.typeError "argument of type is not iterable") :=
  ⟨rfl, rfl⟩

/-- C7 amended: after fence-stripping, and provided the decoded value
(when decoding succeeds) is an object whose `actions` member, when a
list, contains only objects, `parse_response` raises `ValueError` if
and only if decoding failed, the `actions` key is missing, its value
is not a list, or some action is missing a required field or carries a
confidence outside `{high, medium, low}`; otherwise it returns the
actions with their count.  The errors name the missing field and the
invalid confidence value. -/
theorem c7_parse_response_amended (s : String)
    (hshape : object_shaped_response (jsonDecode (action_items.strip_fences s))) :
    ((∃ m, action_items.parse_response s = .error (.valueError m)) ↔
      invalid_actions_response (jsonDecode (action_items.strip_fences s))) ∧
    (∀ fs xs, jsonDecode (action_items.strip_fences s) = some (.dict fs) →
      dictLookup fs "actions" = some (.list xs) → xs.all action_valid = true →
      action_items.parse_response s = .ok ⟨xs, xs.length⟩) ∧
    action_items.parse_response bad_confidence_json =
      .error (.valueError "Action 0 has invalid confidence: super-high") ∧
    action_items.parse_response missing_owner_json =
      .error (.valueError "Action 0 missing required field: owner") := by
  refine ⟨?_, ?_, rfl, rfl⟩
  all_goals rcases hdec : jsonDecode (action_items.strip_fences s) with _ | v
  · -- the iff, when decoding failed
    have hp : action_items.parse_response s =
        .error (.valueError ("Invalid JSON in action items response: " ++ jsonErrorMsg)) := by
      simp only [action_items.parse_response, hdec]
      rfl
    exact ⟨fun _ => Or.inl rfl, fun _ => ⟨_, hp⟩⟩
  · -- the iff, when decoding succeeded
    obtain ⟨⟨fs, rfl⟩, hacts⟩ := hshape v hdec
    by_cases hact : dictContains fs "actions" = true
    · obtain ⟨av, hav⟩ : ∃ av, dictLookup fs "actions" = some av := by
        rcases hx : dictLookup fs "actions" with _ | av
        · rw [dictContains, hx] at hact
          simp at hact
        · exact ⟨av, rfl⟩
      rcases av with _ | b | n | st | xs | ts | dfs
      rotate_left 4
      · -- the actions value is a list
        have hobjs : ∀ a ∈ xs, ∃ afs, a = .dict afs := hacts fs xs rfl hav
        by_cases hvalid : xs.all action_valid = true
        · have hp : action_items.parse_response s = .ok ⟨xs, xs.length⟩ := by
            simp only [action_items.parse_response, hdec]
            simp [pyContains, hact, except_bind_ok, pyGetItemStr, hav,
              validate_actions_ok xs 0 hobjs hvalid, except_pure_eq]
          constructor
          · rintro ⟨m, hm⟩
            rw [hp] at hm
            exact absurd hm (by simp)
          · rintro (hnone | ⟨fs2, heq, hbad⟩)
            · exact absurd hnone (by simp)
            · injection heq with heq1
              injection heq1 with heq2
              subst heq2
              rcases hbad with hmiss | ⟨av2, hav2, hlist⟩ | ⟨xs2, hxs2, hall⟩
              · rw [hact] at hmiss
                exact absurd hmiss (by simp)
              · rw [hav] at hav2
                injection hav2 with hav3
                rw [← hav3] at hlist
                exact absurd hlist (by simp [is_py_list])
              · rw [hav] at hxs2
                injection hxs2 with hxs3
                injection hxs3 with hxs4
                rw [← hxs4, hvalid] at hall
                exact absurd hall (by simp)
        · simp only [Bool.not_eq_true] at hvalid
          obtain ⟨m, hm⟩ := validate_actions_err xs 0 hobjs hvalid
          have hp : action_items.parse_response s = .error (.valueError m) := by
            simp only [action_items.parse_response, hdec]
            simp [pyContains, hact, except_bind_ok, pyGetItemStr, hav, hm,
              except_bind_err]
          exact ⟨fun _ => Or.inr ⟨fs, rfl, Or.inr (Or.inr ⟨xs, hav, hvalid⟩)⟩,
            fun _ => ⟨m, hp⟩⟩
      all_goals
        have hp : action_items.parse_response s =
            .error (.valueError "'actions' must be a list") := by
          simp only [action_items.parse_response, hdec]
          simp [pyContains, hact, except_bind_ok, pyGetItemStr, hav, except_throw]
      · exact ⟨fun _ => Or.inr ⟨fs, rfl, Or.inr (Or.inl ⟨.tuple ts, hav, rfl⟩)⟩,
          fun _ => ⟨_, hp⟩⟩
      · exact ⟨fun _ => Or.inr ⟨fs, rfl, Or.inr (Or.inl ⟨.dict dfs, hav, rfl⟩)⟩,
          fun _ => ⟨_, hp⟩⟩
      · exact ⟨fun _ => Or.inr ⟨fs, rfl, Or.inr (Or.inl ⟨.null, hav, rfl⟩)⟩,
          fun _ => ⟨_, hp⟩⟩
      · exact ⟨fun _ => Or.inr ⟨fs, rfl, Or.inr (Or.inl ⟨.bool b, hav, rfl⟩)⟩,
          fun _ => ⟨_, hp⟩⟩
      · exact ⟨fun _ => Or.inr ⟨fs, rfl, Or.inr (Or.inl ⟨.int n, hav, rfl⟩)⟩,
          fun _ => ⟨_, hp⟩⟩
      · exact ⟨fun _ => Or.inr ⟨fs, rfl, Or.inr (Or.inl ⟨.str st, hav, rfl⟩)⟩,
          fun _ => ⟨_, hp⟩⟩
    · simp only [Bool.not_eq_true] at hact
      have hp : action_items.parse_response s =
          .error (.valueError "Response missing 'actions' field") := by
        simp only [action_items.parse_response, hdec]
        simp [pyContains, hact, except_bind_ok, except_throw]
      exact ⟨fun _ => Or.inr ⟨fs, rfl, Or.inl hact⟩, fun _ => ⟨_, hp⟩⟩
  · -- the success conclusion, when decoding failed: vacuous
    intro fs xs hfs
    exact absurd hfs (by simp)
  · -- the success conclusion, when decoding succeeded
    intro fs xs hfs hxs hall
    have hv : v = PyVal.dict fs := Option.some.inj hfs
    subst hv
    obtain ⟨-, hacts⟩ := hshape (PyVal.dict fs) hdec
    have hobjs : ∀ a ∈ xs, ∃ afs, a = .dict afs := hacts fs xs rfl hxs
    have hact : dictContains fs "actions" = true := by
      rw [dictContains, hxs]
      rfl
    simp only [action_items.parse_response, hdec]
    simp [pyContains, hact, except_bind_ok, pyGetItemStr, hxs,
      validate_actions_ok xs 0 hobjs hall, except_pure_eq]

set_option maxRecDepth 16384 in
/-- Witness for C7 amended at a well-formed response with one valid
action. -/
theorem c7_witness :
    action_items.parse_response good_actions_json =
      .ok ⟨[.dict good_action_fields], 1⟩ := by
  have hdec : jsonDecode (action_items.strip_fences good_actions_json) =
      some (.dict [("actions", .list [.dict good_action_fields])]) := rfl
  have hshape : object_shaped_response
      (jsonDecode (action_items.strip_fences good_actions_json)) := by
    intro v hv
    rw [hdec] at hv
    injection hv with hv'
    subst hv'
    refine ⟨⟨_, rfl⟩, ?_⟩
    intro fs xs hfs hxs a ha
    injection hfs with hfs'
    subst hfs'
    rw [show dictLookup [("actions", PyVal.list [PyVal.dict good_action_fields])]
        "actions" = some (.list [.dict good_action_fields]) from rfl] at hxs
    injection hxs with hxs'
    injection hxs' with hxs''
    subst hxs''
    rw [List.mem_singleton] at ha
    exact ⟨good_action_fields, ha⟩
  exact (c7_parse_response_amended good_actions_json hshape).2.1
    [("actions", .list [.dict good_action_fields])] [.dict good_action_fields]
    hdec rfl (by decide)

/-- C10: a well-formed response whose `actions` list is empty parses
successfully to `{actions: [], count: 0}` — the parser enforces no
minimum or maximum number of actions. -/
theorem c10_empty_actions_ok (s : String) (fs : List (String × PyVal))
    (h1 : jsonDecode (action_items.strip_fences s) = some (.dict fs))
    (h2 : dictLookup fs "actions" = some (.list [])) :
    action_items.parse_response s = .ok ⟨[], 0⟩ := by
  have hact : dictContains fs "actions" = true := by
    rw [dictContains, h2]
    rfl
  simp only [action_items.parse_response, h1]
  simp [pyContains, hact, except_bind_ok, pyGetItemStr, h2,
    action_items.validate_actions, except_pure_eq]

/-- Witness for C10 at the literal response `{"actions": []}`. -/
theorem c10_witness :
    action_items.parse_response "\x7b\"actions\": []\x7d" = .ok ⟨[], 0⟩ :=
  c10_empty_actions_ok "\x7b\"actions\": []\x7d" [("actions", .list [])] rfl rfl

/-- Witness for C8: `max_tokens = 0` is rejected with zero transport
calls. -/
theorem c8_witness :
    ∃ m, AnthropicProvider.generate (fun _ => .error "network error") 3 (0, 0)
        "Summarize this" 0 0 = (.error (.valueError m), (0, 0), 0) :=
  c8_invalid_args_no_network (fun _ => .error "network error") 3 (0, 0)
    "Summarize this" 0 0 (Or.inr (Or.inr (Or.inl (by decide))))

end ReportGen
